import Mathlib

/-!
Shallow embedding of the core of the `unifi` Go package (`api.go`):
the request pipeline `doReq`, the `login` handshake, and the
file-based credential store (`fileAuthStore.Load` / `fileAuthStore.Save`),
together with theorems about the retry/re-authentication behaviour,
error classification, and credential-store round-trip.
-/

namespace Unifi

/-- The decoded `meta` part of the response envelope:
`Meta.Code` (json `"rc"`) and `Meta.Msg` (json `"msg"`) in `doReq`'s `dec` struct. -/
structure RespMeta where
  rc : String
  msg : String
  deriving DecidableEq, Repr

/-- The result of `json.Unmarshal(body, &dec)` on a response body:
either the body is not valid JSON for the envelope shape (`malformed`),
or it decodes to an envelope with `meta` and the `data` payload of the
caller-supplied shape `α`. -/
inductive Body (α : Type) where
  | malformed
  | envelope (meta : RespMeta) (data : α)
  deriving DecidableEq

/-- The outcome of one HTTP attempt (`api.hc.Do(req)` followed by reading
the body): a transport-level failure (`hc.Do` error or body-read error),
or a response with a status code and a body. -/
inductive HTTPResult (α : Type) where
  | transportErr
  | resp (status : Nat) (body : Body α)
  deriving DecidableEq

/-- The errors `doReq` can return, one constructor per `return` of a
non-nil error in the Go source:
`transport` for the `api.hc.Do` / `ioutil.ReadAll` errors,
`decode` for `"parsing response body: %v"`,
`api` for `"non-ok return code %q (%s)"`,
`http` for `"HTTP response %s"`.
An error surfaced from `api.login()` is whatever error that call returned,
so no separate constructor exists for it. -/
inductive Err where
  | transport
  | decode
  | api (rc msg : String)
  | http (status : Nat)
  deriving DecidableEq, Repr

/-- The observable outcome of one `doReq` call: its return value, the
number of HTTP attempts it issued for the request, and the number of
times it invoked `api.login()`. -/
structure ReqOutcome (α : Type) where
  result : Except Err α
  attempts : Nat
  loginCalls : Nat

/-- What one iteration of `doReq`'s `for` loop does:
`done r l` is `return` with value `r` after making `l` calls to
`api.login()` in this iteration; `retryAfterLogin` is
`triedLogin = true; continue` after a successful `api.login()`. -/
inductive IterResult (α : Type) where
  | done (r : Except Err α) (loginCalls : Nat)
  | retryAfterLogin

/-- The body of `doReq`'s `for` loop (`api.go` lines 117-148), given the
outcome `r` of this iteration's HTTP attempt, the outcome
`loginOutcome` of a call to `api.login()` (consulted only when the code
reaches line 140), and the current value of the `triedLogin` flag. -/
def doReqIter (r : HTTPResult α) (loginOutcome : Except Err Unit)
    (triedLogin : Bool) : IterResult α :=
  match r with
  | .transportErr => .done (.error .transport) 0
  | .resp status body =>
    match body with
    | .malformed => .done (.error .decode) 0
    | .envelope m _data =>
      if status = 200 then
        if m.rc ≠ "ok" then .done (.error (.api m.rc m.msg)) 0
        else .done (.ok _data) 0
      else if status = 401 ∧ triedLogin = false then
        if m.rc = "error" ∧ m.msg = "api.err.LoginRequired" then
          match loginOutcome with
          | .error e => .done (.error e) 1
          | .ok _ => .retryAfterLogin
        else .done (.error (.http status)) 0
      else .done (.error (.http status)) 0

/-- `doReq` (`api.go` lines 102-150): run the loop starting with
`triedLogin = false`.  `respond n` is the outcome of the `n`-th HTTP
attempt of this request.  The loop re-enters only via `retryAfterLogin`,
which sets `triedLogin = true`; with `triedLogin = true` the 401 branch
is unreachable (guard `!triedLogin`), so the second iteration always
returns — `doReqIter_true_ne_retry` below proves the last match arm
unreachable (its value is arbitrary). -/
def doReq (respond : Nat → HTTPResult α) (loginOutcome : Except Err Unit) :
    ReqOutcome α :=
  match doReqIter (respond 0) loginOutcome false with
  | .done r l => ⟨r, 1, l⟩
  | .retryAfterLogin =>
    match doReqIter (respond 1) loginOutcome true with
    | .done r l => ⟨r, 2, 1 + l⟩
    | .retryAfterLogin => ⟨.error (.http 401), 2, 2⟩

/-- Prepend a fixed first response to a response stream. -/
def consResp (r : HTTPResult α) (rest : Nat → HTTPResult α) : Nat → HTTPResult α
  | 0 => r
  | n + 1 => rest n

/-- A response stream that always answers with the same response. -/
def constResp (r : HTTPResult α) : Nat → HTTPResult α := fun _ => r

/-- With `triedLogin = true` the loop body always returns: the 401
re-login branch is guarded by `!triedLogin`, so it never asks to loop
again and never calls `login`. -/
theorem doReqIter_true_ne_retry (r : HTTPResult α)
    (loginOutcome : Except Err Unit) :
    doReqIter r loginOutcome true ≠ .retryAfterLogin ∧
    ∀ res l, doReqIter r loginOutcome true = .done res l → l = 0 := by
  cases r with
  | transportErr => simp [doReqIter]
  | resp status body =>
    cases body with
    | malformed => simp [doReqIter]
    | envelope m d =>
      by_cases h200 : status = 200 <;> by_cases hok : m.rc = "ok" <;>
        simp [doReqIter, h200, hok]

/-- Any single loop iteration calls `api.login()` at most once. -/
theorem doReqIter_done_loginCalls (r : HTTPResult α)
    (loginOutcome : Except Err Unit) (triedLogin : Bool) :
    ∀ res l, doReqIter r loginOutcome triedLogin = .done res l → l ≤ 1 := by
  cases r with
  | transportErr => simp [doReqIter]
  | resp status body =>
    cases body with
    | malformed => simp [doReqIter]
    | envelope m d =>
      by_cases h200 : status = 200 <;> by_cases hok : m.rc = "ok" <;>
        by_cases h401 : status = 401 ∧ triedLogin = false <;>
        by_cases hsig : m.rc = "error" ∧ m.msg = "api.err.LoginRequired" <;>
        cases loginOutcome <;>
        simp [doReqIter, h200, hok, h401, hsig]

/-- The response a controller sends to signal an expired session:
status 401 with the envelope `rc = "error"`, `msg = "api.err.LoginRequired"`
and payload `d`. -/
def loginRequired401 (d : α) : HTTPResult α :=
  .resp 401 (.envelope ⟨"error", "api.err.LoginRequired"⟩ d)

/-- `login` (`api.go` lines 156-167) delegates to `post`, hence to
`doReq`, for the `POST /api/login` request.  `respond k` is the response
to the `k`-th login handshake HTTP request issued during the whole call,
in issue order; the payload shape (`json.RawMessage`) is modelled as
`Unit`.  Because `doReq` re-invokes `api.login()` when the login request
itself receives a 401 envelope with the login-required message, `login`
is recursive; `fuel` bounds that recursion depth and `none` models
running past it.  The result carries the index just after the last
consumed response, so a call starting at `k` issued `k' - k` handshakes
when it returns `some (r, k')`.  The inner block after a successful
nested login is `doReq`'s second iteration (`triedLogin = true`), where
a further 401 is terminal. -/
def loginProc (respond : Nat → HTTPResult Unit) :
    Nat → Nat → Option (Except Err Unit × Nat)
  | 0, _ => none
  | fuel + 1, k =>
    match respond k with
    | .transportErr => some (.error .transport, k + 1)
    | .resp status body =>
      match body with
      | .malformed => some (.error .decode, k + 1)
      | .envelope m _ =>
        if status = 200 then
          if m.rc ≠ "ok" then some (.error (.api m.rc m.msg), k + 1)
          else some (.ok (), k + 1)
        else if status = 401 ∧ m.rc = "error" ∧ m.msg = "api.err.LoginRequired" then
          match loginProc respond fuel (k + 1) with
          | none => none
          | some (.error e, k2) => some (.error e, k2)
          | some (.ok _, k2) =>
            match respond k2 with
            | .transportErr => some (.error .transport, k2 + 1)
            | .resp status2 body2 =>
              match body2 with
              | .malformed => some (.error .decode, k2 + 1)
              | .envelope m2 _ =>
                if status2 = 200 then
                  if m2.rc ≠ "ok" then some (.error (.api m2.rc m2.msg), k2 + 1)
                  else some (.ok (), k2 + 1)
                else some (.error (.http status2), k2 + 1)
        else some (.error (.http status), k + 1)

/-- Whether a response is the 401 login-required signal that makes
`doReq` re-authenticate. -/
def isLoginRequired401 (r : HTTPResult Unit) : Bool :=
  match r with
  | .resp status (.envelope m _) =>
    status == 401 && m.rc == "error" && m.msg == "api.err.LoginRequired"
  | _ => false

/-- A response stream whose first answer is the 401 login-required
envelope and whose later answers are 200/"ok": the pathological case
where the controller claims a login is required in response to the
login request itself, and subsequent handshakes succeed. -/
def loginRetryStream : Nat → HTTPResult Unit
  | 0 => .resp 401 (.envelope ⟨"error", "api.err.LoginRequired"⟩ ())
  | 1 => .resp 200 (.envelope ⟨"ok", ""⟩ ())
  | 2 => .resp 200 (.envelope ⟨"ok", ""⟩ ())
  | _ + 3 => .transportErr

/-- A login-response stream answering 200 with a non-ok result code. -/
def status200ErrStream : Nat → HTTPResult Unit
  | 0 => .resp 200 (.envelope ⟨"error", "api.err.Invalid"⟩ ())
  | _ + 1 => .transportErr

/-- A login-response stream answering 200 with an "ok" envelope. -/
def okLoginStream : Nat → HTTPResult Unit
  | 0 => .resp 200 (.envelope ⟨"ok", ""⟩ ())
  | _ + 1 => .transportErr

/-- A session cookie as persisted in the auth file (abstraction of
`*http.Cookie`: the JSON-roundtripped name/value pair). -/
structure Cookie where
  name : String
  value : String
  deriving DecidableEq, Repr

/-- `Auth` (`api.go` lines 31-35): credentials, controller host and the
persisted session cookies. -/
structure Auth where
  username : String
  password : String
  controllerHost : String
  cookies : List Cookie
  deriving DecidableEq, Repr

/-- JSON values, restricted to the shapes `encoding/json` produces for
an `Auth` record: strings, arrays and objects. -/
inductive Json where
  | str (s : String)
  | arr (elems : List Json)
  | obj (fields : List (String × Json))

/-- `json.Marshal` of a cookie: an object keyed by the Go field names. -/
def encodeCookie (c : Cookie) : Json :=
  .obj [("Name", .str c.name), ("Value", .str c.value)]

/-- `json.Marshal(auth)`: an object keyed by the exported Go field
names of `Auth`. -/
def encodeAuth (a : Auth) : Json :=
  .obj [("Username", .str a.username),
        ("Password", .str a.password),
        ("ControllerHost", .str a.controllerHost),
        ("Cookies", .arr (a.cookies.map encodeCookie))]

/-- Field lookup in a decoded JSON object. -/
def lookupField (fields : List (String × Json)) (k : String) : Option Json :=
  match fields with
  | [] => none
  | (k', v) :: rest => if k' = k then some v else lookupField rest k

/-- `json.Unmarshal` into a string field: a missing key leaves the zero
value `""`; a present key must hold a JSON string. -/
def decodeStrField (fields : List (String × Json)) (k : String) :
    Option String :=
  match lookupField fields k with
  | none => some ""
  | some (.str s) => some s
  | some _ => none

/-- `json.Unmarshal` into a cookie record. -/
def decodeCookie : Json → Option Cookie
  | .obj fields => do
    let n ← decodeStrField fields "Name"
    let v ← decodeStrField fields "Value"
    pure ⟨n, v⟩
  | _ => none

/-- `json.Unmarshal` into the cookie slice, element by element. -/
def decodeCookies : List Json → Option (List Cookie)
  | [] => some []
  | j :: rest => do
    let c ← decodeCookie j
    let cs ← decodeCookies rest
    pure (c :: cs)

/-- `json.Unmarshal(raw, auth)` (`api.go` line 204): decode each field of
`Auth` from the object; a missing field keeps its zero value. -/
def decodeAuth : Json → Option Auth
  | .obj fields => do
    let u ← decodeStrField fields "Username"
    let p ← decodeStrField fields "Password"
    let h ← decodeStrField fields "ControllerHost"
    let cs ← match lookupField fields "Cookies" with
             | none => some []
             | some (.arr elems) => decodeCookies elems
             | some _ => none
    pure ⟨u, p, h, cs⟩
  | _ => none

/-- The raw bytes of the auth file as `json.Unmarshal` sees them: either
they parse as a JSON value or they do not. -/
inductive FileBytes where
  | json (v : Json)
  | notJson

/-- A stored auth file: its permission mode bits and its contents. -/
structure StoredFile where
  mode : Nat
  contents : FileBytes

/-- The errors `fileAuthStore.Load` can return: the `os.Stat` error, the
`"security check failed ..."` error carrying the mode, the
`ioutil.ReadFile` error, and the `"bad auth file ..."` error. -/
inductive LoadError where
  | statErr
  | security (mode : Nat)
  | readErr
  | badAuthFile
  deriving DecidableEq

/-- `fileAuthStore.Load` (`api.go` lines 189-208): stat the file (`none`
models a stat failure), reject group/other-accessible modes before
touching the contents, then read and JSON-decode. -/
def fileAuthStoreLoad (file : Option StoredFile) : Except LoadError Auth :=
  match file with
  | none => .error .statErr
  | some f =>
    if f.mode &&& 0o77 ≠ 0 then .error (.security f.mode)
    else
      match f.contents with
      | .notJson => .error .badAuthFile
      | .json v =>
        match decodeAuth v with
        | none => .error .badAuthFile
        | some a => .ok a

/-- `fileAuthStore.Save` (`api.go` lines 210-216): write the JSON
encoding of the record via `ioutil.WriteFile(f.filename, raw, 0600)`.
`WriteFile` opens with `O_CREATE|O_TRUNC`, so the `0600` permission is
applied only when the file is created; saving over an existing file
(`prior = some f`) replaces its contents but keeps its mode. -/
def fileAuthStoreSave (a : Auth) (prior : Option StoredFile) : StoredFile :=
  ⟨match prior with
   | none => 0o600
   | some f => f.mode,
   .json (encodeAuth a)⟩

/-- The parts of the `API` state `WriteConfig` touches: the in-memory
`auth` record and the cookies currently held by the cookie jar for the
controller origin (`api.hc.Jar.Cookies(api.cookieBase)`). -/
structure APIState where
  auth : Auth
  jarCookies : List Cookie

/-- The `auth` record after `WriteConfig`'s assignment
`api.auth.Cookies = api.hc.Jar.Cookies(api.cookieBase)`
(`api.go` line 72). -/
def writeConfigAuth (api : APIState) : Auth :=
  { api.auth with cookies := api.jarCookies }

/-- `WriteConfig` (`api.go` lines 71-74): update the cookie snapshot,
then save the record through the store (`prior` is the auth file's
state before the save). -/
def writeConfig (api : APIState) (prior : Option StoredFile) : StoredFile :=
  fileAuthStoreSave (writeConfigAuth api) prior

/-- Decoding inverts encoding on a cookie. -/
theorem decodeCookie_encodeCookie (c : Cookie) :
    decodeCookie (encodeCookie c) = some c := by
  simp [decodeCookie, encodeCookie, decodeStrField, lookupField]

/-- Decoding inverts encoding on a cookie list. -/
theorem decodeCookies_map_encodeCookie (cs : List Cookie) :
    decodeCookies (cs.map encodeCookie) = some cs := by
  induction cs with
  | nil => rfl
  | cons c rest ih => simp [decodeCookies, decodeCookie_encodeCookie, ih]

/-- Decoding inverts encoding on an `Auth` record. -/
theorem decodeAuth_encodeAuth (a : Auth) :
    decodeAuth (encodeAuth a) = some a := by
  simp [decodeAuth, encodeAuth, decodeStrField, lookupField,
    decodeCookies_map_encodeCookie]

/-- C1: the pipeline makes at most 2 HTTP attempts and at most one
re-authentication attempt per logical call, and when the first attempt
got the 401 login-required signal, the login succeeded and the resent
request got another 401 (with any decoded envelope `m2` — even the
login-required signature again), `doReq` terminates with `HTTPError 401`
after exactly 2 attempts and 1 login, never looping again. -/
theorem doReq_single_retry_cap (respond : Nat → HTTPResult α)
    (loginOutcome : Except Err Unit) (m2 : RespMeta) (d d2 : α) :
    (doReq respond loginOutcome).attempts ≤ 2 ∧
    (doReq respond loginOutcome).loginCalls ≤ 1 ∧
    doReq (consResp (loginRequired401 d)
        (consResp (.resp 401 (.envelope m2 d2)) respond)) (.ok ()) =
      ⟨.error (.http 401), 2, 1⟩ := by
  refine ⟨?_, ?_, ?_⟩
  · unfold doReq
    cases h0 : doReqIter (respond 0) loginOutcome false with
    | done r l => simp
    | retryAfterLogin =>
      cases h1 : doReqIter (respond 1) loginOutcome true with
      | done r l => simp
      | retryAfterLogin => simp
  · unfold doReq
    cases h0 : doReqIter (respond 0) loginOutcome false with
    | done r l => simpa using doReqIter_done_loginCalls _ _ _ r l h0
    | retryAfterLogin =>
      cases h1 : doReqIter (respond 1) loginOutcome true with
      | done r l =>
        have := (doReqIter_true_ne_retry (respond 1) loginOutcome).2 r l h1
        simp [this]
      | retryAfterLogin =>
        exact absurd h1 (doReqIter_true_ne_retry (respond 1) loginOutcome).1
  · simp [doReq, doReqIter, consResp, loginRequired401]

/-- C2: on a first response of 401 with the login-required envelope,
exactly one login call is made; if the login succeeds the original
request is resent exactly once (2 attempts in total); if the login fails
with error `e`, that error is surfaced unchanged and no resend occurs
(1 attempt). -/
theorem doReq_first401_one_login (respond : Nat → HTTPResult α) (d : α)
    (e : Err) :
    (doReq (consResp (loginRequired401 d) respond) (.ok ())).loginCalls = 1 ∧
    (doReq (consResp (loginRequired401 d) respond) (.ok ())).attempts = 2 ∧
    doReq (consResp (loginRequired401 d) respond) (.error e) =
      ⟨.error e, 1, 1⟩ := by
  refine ⟨?_, ?_, ?_⟩
  · unfold doReq
    have h0 : doReqIter (consResp (loginRequired401 d) respond 0) (.ok ()) false
        = .retryAfterLogin := by
      simp [doReqIter, consResp, loginRequired401]
    rw [h0]
    cases h1 : doReqIter (consResp (loginRequired401 d) respond 1) (.ok ()) true with
    | done r l =>
      have := (doReqIter_true_ne_retry _ _).2 r l h1
      simp [this]
    | retryAfterLogin =>
      exact absurd h1 (doReqIter_true_ne_retry _ _).1
  · unfold doReq
    have h0 : doReqIter (consResp (loginRequired401 d) respond 0) (.ok ()) false
        = .retryAfterLogin := by
      simp [doReqIter, consResp, loginRequired401]
    rw [h0]
    cases h1 : doReqIter (consResp (loginRequired401 d) respond 1) (.ok ()) true with
    | done r l => simp
    | retryAfterLogin => simp
  · simp [doReq, doReqIter, consResp, loginRequired401]

/-- C5: a response body that does not decode as the envelope shape is a
fatal decode error, whatever the HTTP status: one attempt, no retry, no
login call. -/
theorem doReq_malformed_decode_error (status : Nat)
    (respond : Nat → HTTPResult α) (loginOutcome : Except Err Unit) :
    doReq (consResp (.resp status .malformed) respond) loginOutcome =
      ⟨.error .decode, 1, 0⟩ := by
  simp [doReq, doReqIter, consResp]

/-- C6: a first response of status 200 whose envelope has result code
"ok" is a success: `doReq` returns the decoded payload `d` unchanged,
with a single attempt and no login call. -/
theorem doReq_ok_returns_payload (msg : String) (d : α)
    (respond : Nat → HTTPResult α) (loginOutcome : Except Err Unit) :
    doReq (consResp (.resp 200 (.envelope ⟨"ok", msg⟩ d)) respond)
      loginOutcome = ⟨.ok d, 1, 0⟩ := by
  simp [doReq, doReqIter, consResp]

/-- C7: a response of status 200 whose envelope result code is anything
other than "ok" is an `APIError` carrying that code and message, with no
retry and no login call — even when the message is the login-required
signature (see the witness). -/
theorem doReq_200_nonok_api_error (rc msg : String) (h : rc ≠ "ok") (d : α)
    (respond : Nat → HTTPResult α) (loginOutcome : Except Err Unit) :
    doReq (consResp (.resp 200 (.envelope ⟨rc, msg⟩ d)) respond)
      loginOutcome = ⟨.error (.api rc msg), 1, 0⟩ := by
  simp [doReq, doReqIter, consResp, h]

/-- Witness for C7 at rc = "error", msg = "api.err.LoginRequired":
even the login-required message inside a 200 response is an `APIError`,
not a login trigger. -/
theorem doReq_200_nonok_api_error_witness :
    doReq (consResp (.resp 200 (.envelope ⟨"error", "api.err.LoginRequired"⟩
        (0 : Nat))) (constResp .transportErr)) (.ok ()) =
      ⟨.error (.api "error" "api.err.LoginRequired"), 1, 0⟩ :=
  doReq_200_nonok_api_error "error" "api.err.LoginRequired" (by decide) 0
    (constResp .transportErr) (.ok ())

/-- C8: a credential file whose mode has any group/other bits set makes
`Load` fail with the security error.  The contents `c` are universally
quantified and absent from the result, so the failure happens before the
file's contents are read and before anything else (no network call is
even representable in the store). -/
theorem load_rejects_permissive_mode (mode : Nat) (c : FileBytes)
    (h : mode &&& 0o77 ≠ 0) :
    fileAuthStoreLoad (some ⟨mode, c⟩) = .error (.security mode) := by
  simp [fileAuthStoreLoad, h]

/-- Witness for C8 at mode `0644` (group/other-readable) with contents
that are not even JSON: the security error is returned untouched. -/
theorem load_rejects_permissive_mode_witness :
    (0o644 : Nat) &&& 0o77 ≠ 0 ∧
    fileAuthStoreLoad (some ⟨0o644, .notJson⟩) = .error (.security 0o644) :=
  ⟨by decide, load_rejects_permissive_mode 0o644 .notJson (by decide)⟩

/-- C9: `WriteConfig` only replaces the `Cookies` field of the auth
record with the jar snapshot; `Username`, `Password` and
`ControllerHost` are unchanged, and the record saved to the store is
exactly that updated record, whatever the prior state of the file. -/
theorem writeConfig_frame (api : APIState) (prior : Option StoredFile) :
    (writeConfigAuth api).username = api.auth.username ∧
    (writeConfigAuth api).password = api.auth.password ∧
    (writeConfigAuth api).controllerHost = api.auth.controllerHost ∧
    (writeConfigAuth api).cookies = api.jarCookies ∧
    writeConfig api prior = fileAuthStoreSave (writeConfigAuth api) prior :=
  ⟨rfl, rfl, rfl, rfl, rfl⟩

/-- Counterexample to C10 as stated: `ioutil.WriteFile`'s `0600`
permission applies only on file creation, so saving over an auth file
that already exists with mode `0644` keeps that mode, and the
subsequent `Load` fails the security check instead of returning the
record — the unconditional save/load round-trip is false. -/
theorem save_over_permissive_file_counterexample :
    fileAuthStoreSave ⟨"u", "p", "host", []⟩ (some ⟨0o644, .notJson⟩) =
      ⟨0o644, .json (encodeAuth ⟨"u", "p", "host", []⟩)⟩ ∧
    fileAuthStoreLoad (some (fileAuthStoreSave ⟨"u", "p", "host", []⟩
        (some ⟨0o644, .notJson⟩))) = .error (.security 0o644) := by
  have h : (0o644 : Nat) &&& 0o77 ≠ 0 := by decide
  exact ⟨rfl, by simp [fileAuthStoreLoad, fileAuthStoreSave, h]⟩

/-- C10 (amended): when `Save` creates the auth file (`prior = none`)
it writes it with mode `0600`; whenever the file `Save` leaves behind
has no group/other mode bits — on creation, or over an existing file
whose mode already passes the check — the subsequent `Load` passes the
security check and the JSON round-trip returns the very same `Auth`
record. -/
theorem save_load_roundtrip (a : Auth) (prior : Option StoredFile)
    (h : ∀ f, prior = some f → f.mode &&& 0o77 = 0) :
    (fileAuthStoreSave a none).mode = 0o600 ∧
    (fileAuthStoreSave a prior).mode &&& 0o77 = 0 ∧
    fileAuthStoreLoad (some (fileAuthStoreSave a prior)) = .ok a := by
  have h600 : (0o600 : Nat) &&& 0o77 = 0 := by decide
  have hmode : (fileAuthStoreSave a prior).mode &&& 0o77 = 0 := by
    cases prior with
    | none => exact h600
    | some f => exact h f rfl
  refine ⟨rfl, hmode, ?_⟩
  have hmode' : (match prior with
      | none => (0o600 : Nat)
      | some f => f.mode) &&& 0o77 = 0 := hmode
  simp [fileAuthStoreLoad, fileAuthStoreSave, hmode', decodeAuth_encodeAuth]

/-- Witness for C10's amended theorem: a fresh save (no pre-existing
file) of a concrete record loads back equal, through mode `0600`. -/
theorem save_load_roundtrip_witness :
    (fileAuthStoreSave ⟨"u", "p", "host", [⟨"unifises", "abc"⟩]⟩ none).mode
        = 0o600 ∧
    (fileAuthStoreSave ⟨"u", "p", "host", [⟨"unifises", "abc"⟩]⟩ none).mode
        &&& 0o77 = 0 ∧
    fileAuthStoreLoad (some (fileAuthStoreSave
        ⟨"u", "p", "host", [⟨"unifises", "abc"⟩]⟩ none)) =
      .ok ⟨"u", "p", "host", [⟨"unifises", "abc"⟩]⟩ :=
  save_load_roundtrip ⟨"u", "p", "host", [⟨"unifises", "abc"⟩]⟩ none
    (fun _ hf => nomatch hf)

/-- C3 (amended): a `login` call that terminates succeeds exactly when
the last login-request HTTP response it consumed has status 200 with a
well-formed envelope whose result code is "ok"; any other final
response — including a status-200 response with a non-ok result code or
a malformed body — is a login failure. -/
theorem login_success_iff_final_200_ok (respond : Nat → HTTPResult Unit)
    (fuel : Nat) :
    ∀ k k' r, loginProc respond fuel k = some (r, k') →
      (r = .ok () ↔
        ∃ msg, respond (k' - 1) = .resp 200 (.envelope ⟨"ok", msg⟩ ())) := by
  induction fuel with
  | zero => intro k k' r h; simp [loginProc] at h
  | succ fuel ih =>
    intro k k' r h
    rw [loginProc] at h
    cases hr : respond k with
    | transportErr =>
      rw [hr] at h
      simp only [Option.some.injEq, Prod.mk.injEq] at h
      obtain ⟨rfl, rfl⟩ := h.symm
      simp [hr]
    | resp status body =>
      rw [hr] at h
      cases body with
      | malformed =>
        simp only [Option.some.injEq, Prod.mk.injEq] at h
        obtain ⟨rfl, rfl⟩ := h.symm
        simp [hr]
      | envelope m d =>
        cases d
        obtain ⟨mrc, mmsg⟩ := m
        dsimp only at h
        by_cases h200 : status = 200
        · subst h200
          by_cases hok : mrc = "ok"
          · subst hok
            simp only [ne_eq, if_pos rfl, not_true_eq_false, if_neg,
              reduceIte, Option.some.injEq, Prod.mk.injEq] at h
            obtain ⟨rfl, rfl⟩ := h.symm
            simp [hr]
          · simp only [ne_eq, hok, not_false_eq_true, if_pos rfl,
              reduceIte, Option.some.injEq, Prod.mk.injEq] at h
            obtain ⟨rfl, rfl⟩ := h.symm
            simp [hr, hok]
        · by_cases hsig : status = 401 ∧ mrc = "error" ∧
              mmsg = "api.err.LoginRequired"
          · rw [if_neg h200, if_pos hsig] at h
            cases hnest : loginProc respond fuel (k + 1) with
            | none => rw [hnest] at h; simp at h
            | some p =>
              obtain ⟨res, k2⟩ := p
              rw [hnest] at h
              cases res with
              | error e =>
                simp only [Option.some.injEq, Prod.mk.injEq] at h
                obtain ⟨h1, h2⟩ := h
                subst h2
                subst h1
                exact ih (k + 1) _ (.error e) hnest
              | ok u =>
                cases u
                dsimp only at h
                cases hr2 : respond k2 with
                | transportErr =>
                  rw [hr2] at h
                  simp only [Option.some.injEq, Prod.mk.injEq] at h
                  obtain ⟨rfl, rfl⟩ := h.symm
                  simp [hr2]
                | resp status2 body2 =>
                  rw [hr2] at h
                  cases body2 with
                  | malformed =>
                    simp only [Option.some.injEq, Prod.mk.injEq] at h
                    obtain ⟨rfl, rfl⟩ := h.symm
                    simp [hr2]
                  | envelope m2 d2 =>
                    cases d2
                    obtain ⟨m2rc, m2msg⟩ := m2
                    dsimp only at h
                    by_cases h200b : status2 = 200
                    · subst h200b
                      by_cases hokb : m2rc = "ok"
                      · subst hokb
                        simp only [ne_eq, not_true_eq_false, reduceIte,
                          Option.some.injEq, Prod.mk.injEq] at h
                        obtain ⟨rfl, rfl⟩ := h.symm
                        simp [hr2]
                      · simp only [ne_eq, hokb, not_false_eq_true,
                          reduceIte, Option.some.injEq, Prod.mk.injEq] at h
                        obtain ⟨rfl, rfl⟩ := h.symm
                        simp [hr2, hokb]
                    · rw [if_neg h200b] at h
                      simp only [Option.some.injEq, Prod.mk.injEq] at h
                      obtain ⟨rfl, rfl⟩ := h.symm
                      simp [hr2, h200b]
          · rw [if_neg h200, if_neg hsig] at h
            simp only [Option.some.injEq, Prod.mk.injEq] at h
            obtain ⟨rfl, rfl⟩ := h.symm
            simp [hr, h200]

/-- Witness for C3's amended theorem: a login whose single handshake
gets a 200/"ok" envelope terminates at index 1 and the theorem equates
its success with that final response's shape. -/
theorem login_success_iff_final_200_ok_witness :
    (Except.ok () : Except Err Unit) = .ok () ↔
      ∃ msg, okLoginStream 0 = .resp 200 (.envelope ⟨"ok", msg⟩ ()) :=
  login_success_iff_final_200_ok okLoginStream 1 0 1 (.ok ()) rfl

/-- Counterexample to C3 as stated: the login response has HTTP status
200, yet login fails (with the `APIError` for result code "error"),
because the envelope's result code is not "ok". -/
theorem login_status200_failure_counterexample :
    status200ErrStream 0 = .resp 200 (.envelope ⟨"error", "api.err.Invalid"⟩ ()) ∧
    loginProc status200ErrStream 1 0 =
      some (.error (.api "error" "api.err.Invalid"), 1) :=
  ⟨rfl, rfl⟩

/-- C4 (amended): whenever the response to the login request is not
itself a 401 envelope carrying the login-required message, the `login`
call issues exactly one login handshake request (it terminates having
consumed exactly the one response at index `k`). -/
theorem login_single_handshake (respond : Nat → HTTPResult Unit)
    (fuel k : Nat) (h : isLoginRequired401 (respond k) = false) :
    (loginProc respond (fuel + 1) k).map Prod.snd = some (k + 1) := by
  rw [loginProc]
  cases hr : respond k with
  | transportErr => rfl
  | resp status body =>
    cases body with
    | malformed => rfl
    | envelope m d =>
      rw [hr] at h
      unfold isLoginRequired401 at h
      dsimp only at h ⊢
      by_cases h200 : status = 200
      · subst h200
        by_cases hok : m.rc = "ok" <;> simp [hok]
      · rw [if_neg h200]
        have hsig : ¬(status = 401 ∧ m.rc = "error" ∧
            m.msg = "api.err.LoginRequired") := by
          intro ⟨h1, h2, h3⟩
          subst h1
          simp [h2, h3] at h
        rw [if_neg hsig]
        rfl

/-- Witness for C4's amended theorem: a login answered 200/"ok" at
index 0 consumes exactly one response. -/
theorem login_single_handshake_witness :
    (loginProc okLoginStream 1 0).map Prod.snd = some 1 :=
  login_single_handshake okLoginStream 0 0 rfl

/-- Counterexample to C4 as stated: if the controller answers the login
request itself with the 401 login-required envelope, `doReq`'s retry
logic makes this single logical `login` call invoke a nested `login`
(second handshake) and then resend its own login request (third
handshake): the returned index is 3, not 1, contradicting "exactly one
login handshake request, regardless of the response it receives". -/
theorem login_three_handshakes_counterexample :
    loginProc loginRetryStream 2 0 = some (.ok (), 3) ∧
    (loginProc loginRetryStream 2 0).map Prod.snd ≠ some (0 + 1) := by
  refine ⟨rfl, ?_⟩
  intro hc
  rw [show loginProc loginRetryStream 2 0 = some (.ok (), 3) from rfl] at hc
  simp at hc

end Unifi
